import Mathlib

/-!
Shallow embedding of `src/sandbox/src/temp_renderer/renderer.rs` (crate
`tempura-renderer`, module `temp_renderer::renderer`), a Vulkan bootstrap
built on the `ash` bindings.

Modelling conventions:
* Vulkan bit-flag types (`vk::MemoryPropertyFlags`, `vk::QueueFlags`, ...)
  are `Nat` bitmasks with the numeric values used by `ash`/Vulkan.
* `u32` / `u64` values are `Nat`; the only place wrap-around could matter is
  the sentinel comparison against `std::u32::MAX`, which is an equality test
  and is modelled with the literal `4294967295`.
* Rust panics (`unwrap` / `expect` / out-of-bounds indexing) abort
  `Renderer::new` without producing a value; they are modelled as `none`.
* Device-side behaviour (what the driver returns for a query) is a parameter
  of the embedded function, since the source only consumes those results.
-/

namespace TempuraRenderer

/-- Numeric value of `vk::QueueFlags::GRAPHICS`. -/
def QUEUE_GRAPHICS : Nat := 1

/-- Numeric value of `vk::MemoryPropertyFlags::DEVICE_LOCAL`. -/
def MEMORY_PROPERTY_DEVICE_LOCAL : Nat := 1

/-- Numeric value of `vk::FenceCreateFlags::SIGNALED`. -/
def FENCE_CREATE_SIGNALED : Nat := 1

/-- Numeric value of `std::u32::MAX`, the sentinel the source compares the
surface extent width against. -/
def U32_MAX : Nat := 4294967295

/-- Structure `vk::Extent2D`. -/
structure Extent2D where
  width : Nat
  height : Nat
deriving DecidableEq, Repr

/-- Enumeration `vk::PresentModeKHR` (the variants relevant to this module). -/
inductive PresentModeKHR where
  | immediate
  | mailbox
  | fifo
  | fifoRelaxed
deriving DecidableEq, Repr

/-- Structure `vk::SurfaceFormatKHR`: a pixel format paired with a color space, both
abstract enumerations here. -/
structure SurfaceFormatKHR where
  format : Nat
  color_space : Nat
deriving DecidableEq, Repr

/-- renderer.rs lines 294-299: the negotiated swapchain image count.
The source initialises `desired_image_count` to `min_image_count + 1` and
overwrites it with `max_image_count` when `max_image_count > 0` and the
desired count exceeds it. -/
def desired_image_count (min_image_count max_image_count : Nat) : Nat :=
  let d := min_image_count + 1
  if max_image_count > 0 && d > max_image_count then max_image_count else d

/-- renderer.rs lines 300-306: the negotiated surface resolution.  The source
matches on `surface_capabilities.current_extent.width` alone: the arm
`std::u32::MAX` yields the hard-coded 1920x1080 fallback, every other width
passes the reported extent through. -/
def surface_resolution_of (current_extent : Extent2D) : Extent2D :=
  if current_extent.width = U32_MAX then { width := 1920, height := 1080 }
  else current_extent

/-- The Vulkan "size undefined" sentinel for `currentExtent`: the special
value (0xFFFFFFFF, 0xFFFFFFFF) a surface reports when the swapchain chooses
the size. -/
def undefined_extent : Extent2D := { width := U32_MAX, height := U32_MAX }

/-- renderer.rs lines 315-322: present-mode selection.  The source searches
the supported list for `MAILBOX` and falls back to `FIFO` via `unwrap_or`
when the search fails. -/
def choose_present_mode (present_modes : List PresentModeKHR) : PresentModeKHR :=
  (present_modes.find? fun mode => mode == PresentModeKHR.mailbox).getD
    PresentModeKHR.fifo

/-- renderer.rs lines 80-82: `Renderer::new` takes element `[0]` of the
surface-format list.  Indexing an empty vector panics, modelled as `none`. -/
def select_surface_format (formats : List SurfaceFormatKHR) :
    Option SurfaceFormatKHR :=
  formats[0]?

/-- Structure `vk::MemoryRequirements`. -/
structure MemoryRequirements where
  size : Nat
  alignment : Nat
  memory_type_bits : Nat
deriving DecidableEq, Repr

/-- Structure `vk::MemoryType`. -/
structure MemoryType where
  property_flags : Nat
  heap_index : Nat
deriving DecidableEq, Repr

/-- Structure `vk::PhysicalDeviceMemoryProperties`: in Vulkan `memory_types` is a
fixed 32-entry array of which the first `memory_type_count` entries are
meaningful; here it is a list, and the source's slice
`memory_types[..memory_type_count]` becomes `List.take`. -/
structure PhysicalDeviceMemoryProperties where
  memory_type_count : Nat
  memory_types : List MemoryType
deriving DecidableEq, Repr

/-- The closure at renderer.rs lines 403-406: memory type `memory_type` at
index `index` is acceptable when bit `index` of the requirement bitmask is
set and its property flags contain every required bit. -/
def memory_type_suitable (memory_req : MemoryRequirements) (flags : Nat)
    (index : Nat) (memory_type : MemoryType) : Bool :=
  (1 <<< index) &&& memory_req.memory_type_bits != 0
    && memory_type.property_flags &&& flags == flags

/-- renderer.rs lines 395-408 (`find_memorytype_index`): enumerate the first
`memory_type_count` memory types, find the first suitable one, keep its
index. -/
def find_memorytype_index (memory_req : MemoryRequirements)
    (memory_prop : PhysicalDeviceMemoryProperties) (flags : Nat) :
    Option Nat :=
  (((memory_prop.memory_types.take memory_prop.memory_type_count).enum.find?
      fun it => memory_type_suitable memory_req flags it.1 it.2).map
    fun it => it.1)

/-- One entry of `get_physical_device_queue_family_properties`, paired with
the result of `get_physical_device_surface_support` for that family index
against the fixed surface (the query's `Result` is unwrapped in the source,
so only the success value is modelled). -/
structure QueueFamilyInfo where
  queue_flags : Nat
  surface_support : Bool
deriving DecidableEq, Repr

/-- One entry of `enumerate_physical_devices`, identified by its abstract
handle, together with its queue-family enumeration. -/
structure PhysicalDeviceInfo where
  handle : Nat
  queue_families : List QueueFamilyInfo
deriving DecidableEq, Repr

/-- renderer.rs lines 243-248: `queue_flags.contains(GRAPHICS)` (flag
containment: intersection equals the queried flags) and present support for
the surface. -/
def supports_graphic_and_surface (info : QueueFamilyInfo) : Bool :=
  info.queue_flags &&& QUEUE_GRAPHICS == QUEUE_GRAPHICS
    && info.surface_support

/-- renderer.rs lines 226-258 (`get_physical_device`): `find_map` over the
enumerated physical devices of a `find_map` over each device's enumerated
queue families, yielding the device handle and family index; the source's
`expect` panic when nothing qualifies is modelled as `none`. -/
def get_physical_device (pdevices : List PhysicalDeviceInfo) :
    Option (Nat × Nat) :=
  pdevices.findSome? fun pdevice =>
    pdevice.queue_families.enum.findSome? fun it =>
      if supports_graphic_and_surface it.2 then some (pdevice.handle, it.1)
      else none

/-- Numeric value of `std::u64::MAX`, the timeout passed to
`wait_for_fences`. -/
def U64_MAX : Nat := 18446744073709551615

/-- Numeric value of `vk::CommandBufferResetFlags::RELEASE_RESOURCES`. -/
def COMMAND_BUFFER_RESET_RELEASE_RESOURCES : Nat := 1

/-- Numeric value of `vk::CommandBufferUsageFlags::ONE_TIME_SUBMIT`. -/
def COMMAND_BUFFER_USAGE_ONE_TIME_SUBMIT : Nat := 1

/-- Numeric value of `vk::PipelineStageFlags::BOTTOM_OF_PIPE`. -/
def PIPELINE_STAGE_BOTTOM_OF_PIPE : Nat := 8192

/-- Numeric value of `vk::PipelineStageFlags::LATE_FRAGMENT_TESTS`. -/
def PIPELINE_STAGE_LATE_FRAGMENT_TESTS : Nat := 512

/-- Numeric value of `vk::AccessFlags::DEPTH_STENCIL_ATTACHMENT_READ`. -/
def ACCESS_DEPTH_STENCIL_ATTACHMENT_READ : Nat := 512

/-- Numeric value of `vk::AccessFlags::DEPTH_STENCIL_ATTACHMENT_WRITE`. -/
def ACCESS_DEPTH_STENCIL_ATTACHMENT_WRITE : Nat := 1024

/-- Numeric value of `vk::ImageLayout::UNDEFINED`. -/
def IMAGE_LAYOUT_UNDEFINED : Nat := 0

/-- Numeric value of `vk::ImageLayout::DEPTH_STENCIL_ATTACHMENT_OPTIMAL`. -/
def IMAGE_LAYOUT_DEPTH_STENCIL_ATTACHMENT_OPTIMAL : Nat := 3

/-- Numeric value of `vk::ImageAspectFlags::DEPTH`. -/
def IMAGE_ASPECT_DEPTH : Nat := 2

/-- Numeric value of `vk::ImageType::TYPE_2D`. -/
def IMAGE_TYPE_2D : Nat := 1

/-- Numeric value of `vk::Format::D16_UNORM`. -/
def FORMAT_D16_UNORM : Nat := 124

/-- Numeric value of `vk::SampleCountFlags::TYPE_1`. -/
def SAMPLE_COUNT_1 : Nat := 1

/-- Numeric value of `vk::ImageTiling::OPTIMAL`. -/
def IMAGE_TILING_OPTIMAL : Nat := 0

/-- Numeric value of `vk::ImageUsageFlags::DEPTH_STENCIL_ATTACHMENT`. -/
def IMAGE_USAGE_DEPTH_STENCIL_ATTACHMENT : Nat := 32

/-- Numeric value of `vk::SharingMode::EXCLUSIVE`. -/
def SHARING_MODE_EXCLUSIVE : Nat := 0

/-- Structure `vk::ImageMemoryBarrier` (the fields this module sets; the `ash`
builder zero-initialises the rest, including the source access mask and the
base mip level / array layer of the subresource range). -/
structure ImageMemoryBarrier where
  src_access_mask : Nat
  dst_access_mask : Nat
  old_layout : Nat
  new_layout : Nat
  image : Nat
  aspect_mask : Nat
  base_mip_level : Nat
  level_count : Nat
  base_array_layer : Nat
  layer_count : Nat
deriving DecidableEq, Repr

/-- A command recorded into a command buffer by a recording callback.  The
only recording entry point this module invokes is `cmd_pipeline_barrier`
(renderer.rs lines 481-489). -/
inductive Cmd where
  | pipeline_barrier (src_stage_mask dst_stage_mask dependency_flags : Nat)
      (memory_barriers buffer_memory_barriers : List Nat)
      (image_memory_barriers : List ImageMemoryBarrier)
deriving DecidableEq, Repr

/-- CPU-observable state of the reuse fence the protocol manages:
`signaled` is the fence's current status, `pending` that a submission which
signals this fence on completion is in flight on the device.  Vulkan
guarantees a pending submission eventually completes and signals, so an
unbounded wait on a pending fence returns. -/
structure FenceState where
  signaled : Bool
  pending : Bool
deriving DecidableEq, Repr

/-- One device entry-point invocation, as a mock device would record it. -/
inductive DeviceOp where
  | wait_for_fences (fences : List Nat) (wait_all : Bool) (timeout : Nat)
  | reset_fences (fences : List Nat)
  | reset_command_buffer (command_buffer flags : Nat)
  | begin_command_buffer (command_buffer flags : Nat)
  | cmd (command_buffer : Nat) (c : Cmd)
  | end_command_buffer (command_buffer : Nat)
  | queue_submit (queue : Nat) (wait_semaphores : List Nat)
      (wait_dst_stage_mask : List Nat) (command_buffers : List Nat)
      (signal_semaphores : List Nat) (fence : Nat)
deriving DecidableEq, Repr

/-- Mock device state: the state of the reuse fence in play, plus the
chronological log of device calls. -/
structure DeviceState where
  fence : FenceState
  log : List DeviceOp
deriving DecidableEq, Repr

/-- Call `device.wait_for_fences(&[fence], true, u64::MAX)` (renderer.rs lines
506-508): returns once the fence is signaled.  An unsignaled fence with a
pending submission blocks until that submission completes and signals; an
unsignaled fence with nothing pending makes the unbounded wait block
forever, modelled as `none`. -/
def wait_for_fences (fences : List Nat) (wait_all : Bool) (timeout : Nat)
    (s : DeviceState) : Option DeviceState :=
  if s.fence.signaled then
    some { s with
      log := s.log ++ [DeviceOp.wait_for_fences fences wait_all timeout] }
  else if s.fence.pending then
    some { fence := { signaled := true, pending := false },
           log := s.log ++ [DeviceOp.wait_for_fences fences wait_all timeout] }
  else none

/-- Call `device.reset_fences` (renderer.rs lines 510-512): the fence returns to
the unsignaled state. -/
def reset_fences (fences : List Nat) (s : DeviceState) : DeviceState :=
  { fence := { signaled := false, pending := s.fence.pending },
    log := s.log ++ [DeviceOp.reset_fences fences] }

/-- Call `device.reset_command_buffer` (renderer.rs lines 514-519). -/
def reset_command_buffer (command_buffer flags : Nat) (s : DeviceState) :
    DeviceState :=
  { s with
    log := s.log ++ [DeviceOp.reset_command_buffer command_buffer flags] }

/-- Call `device.begin_command_buffer` (renderer.rs lines 524-526). -/
def begin_command_buffer (command_buffer flags : Nat) (s : DeviceState) :
    DeviceState :=
  { s with
    log := s.log ++ [DeviceOp.begin_command_buffer command_buffer flags] }

/-- The caller-supplied recording callback `f`, shallowly embedded as the
list of commands it records into the given command buffer (renderer.rs line
527). -/
def record_cmds (command_buffer : Nat) (cmds : List Cmd) (s : DeviceState) :
    DeviceState :=
  { s with log := s.log ++ cmds.map (DeviceOp.cmd command_buffer) }

/-- Call `device.end_command_buffer` (renderer.rs lines 528-530). -/
def end_command_buffer (command_buffer : Nat) (s : DeviceState) :
    DeviceState :=
  { s with log := s.log ++ [DeviceOp.end_command_buffer command_buffer] }

/-- Call `device.queue_submit` with the reuse fence (renderer.rs lines 540-542):
the submitted batch signals the fence when its device-side execution
completes, recorded as `pending := true`. -/
def queue_submit (queue : Nat)
    (wait_semaphores wait_dst_stage_mask command_buffers
      signal_semaphores : List Nat) (fence : Nat) (s : DeviceState) :
    DeviceState :=
  { fence := { signaled := s.fence.signaled, pending := true },
    log := s.log ++ [DeviceOp.queue_submit queue wait_semaphores
      wait_dst_stage_mask command_buffers signal_semaphores fence] }

/-- renderer.rs lines 494-544 (`record_submit_commandbuffer`): wait on the
reuse fence, reset it, reset the buffer releasing its resources, begin with
the one-time-submit hint, run the callback, end, and submit to the queue
with the wait/signal semaphores and the reuse fence as completion signal.
Each step panics on device error in the source; the only modelled failure
is the unbounded fence wait never returning. -/
def record_submit_commandbuffer
    (command_buffer command_buffer_reuse_fence submit_queue : Nat)
    (wait_mask wait_semaphores signal_semaphores : List Nat) (f : List Cmd)
    (s : DeviceState) : Option DeviceState :=
  (wait_for_fences [command_buffer_reuse_fence] true U64_MAX s).map fun s1 =>
    queue_submit submit_queue wait_semaphores wait_mask [command_buffer]
      signal_semaphores command_buffer_reuse_fence
      (end_command_buffer command_buffer
        (record_cmds command_buffer f
          (begin_command_buffer command_buffer
            COMMAND_BUFFER_USAGE_ONE_TIME_SUBMIT
            (reset_command_buffer command_buffer
              COMMAND_BUFFER_RESET_RELEASE_RESOURCES
              (reset_fences [command_buffer_reuse_fence] s1)))))

/-- renderer.rs lines 466-479: the barrier `optimize_depth_image_layout`
records (builder defaults: zero source access mask, zero base mip level and
base array layer). -/
def layout_transition_barriers (depth_image : Nat) : ImageMemoryBarrier :=
  { src_access_mask := 0,
    dst_access_mask := ACCESS_DEPTH_STENCIL_ATTACHMENT_READ |||
      ACCESS_DEPTH_STENCIL_ATTACHMENT_WRITE,
    old_layout := IMAGE_LAYOUT_UNDEFINED,
    new_layout := IMAGE_LAYOUT_DEPTH_STENCIL_ATTACHMENT_OPTIMAL,
    image := depth_image,
    aspect_mask := IMAGE_ASPECT_DEPTH,
    base_mip_level := 0,
    level_count := 1,
    base_array_layer := 0,
    layer_count := 1 }

/-- renderer.rs lines 450-492 (`optimize_depth_image_layout`): invoke the
submission protocol with empty wait-mask, wait-semaphore and
signal-semaphore slices and a callback recording one
`cmd_pipeline_barrier` from bottom-of-pipe to late-fragment-tests with the
layout-transition barrier. -/
def optimize_depth_image_layout
    (setup_command_buffer setup_fence present_queue depth_image : Nat)
    (s : DeviceState) : Option DeviceState :=
  record_submit_commandbuffer setup_command_buffer setup_fence present_queue
    [] [] []
    [Cmd.pipeline_barrier PIPELINE_STAGE_BOTTOM_OF_PIPE
      PIPELINE_STAGE_LATE_FRAGMENT_TESTS 0 [] []
      [layout_transition_barriers depth_image]]
    s

/-- Call `create_fence` (renderer.rs lines 106-111): a new fence is signaled iff
the create info carries the `SIGNALED` flag; no submission is pending on
it. -/
def create_fence (flags : Nat) : FenceState :=
  { signaled := flags &&& FENCE_CREATE_SIGNALED == FENCE_CREATE_SIGNALED,
    pending := false }

/-- renderer.rs lines 103-104: the create info used for both reuse fences
carries `vk::FenceCreateFlags::SIGNALED`. -/
def fence_create_info_flags : Nat := FENCE_CREATE_SIGNALED

/-- renderer.rs lines 106-108: the draw-command reuse fence at creation. -/
def draw_commands_reuse_fence : FenceState :=
  create_fence fence_create_info_flags

/-- renderer.rs lines 109-111: the setup-command reuse fence at creation. -/
def setup_commands_reuse_fence : FenceState :=
  create_fence fence_create_info_flags

/-- The unbounded fence wait issued at the top of the protocol blocks iff
the fence is not already signaled when the wait is issued. -/
def wait_blocks (s : DeviceState) : Bool := !s.fence.signaled

/-- Iteration: `n` back-to-back invocations of the submission protocol on the same
command buffer and fence. -/
def run_cycles (command_buffer fence queue : Nat)
    (wait_mask wait_semaphores signal_semaphores : List Nat) (f : List Cmd) :
    Nat → DeviceState → Option DeviceState
  | 0, s => some s
  | n + 1, s =>
    (record_submit_commandbuffer command_buffer fence queue wait_mask
        wait_semaphores signal_semaphores f s).bind
      (run_cycles command_buffer fence queue wait_mask wait_semaphores
        signal_semaphores f n)

/-- Structure `vk::Extent3D`; the source converts the 2D surface resolution with
`.into()`, which sets `depth := 1`. -/
structure Extent3D where
  width : Nat
  height : Nat
  depth : Nat
deriving DecidableEq, Repr

/-- Structure `vk::ImageCreateInfo` (the fields the source sets at renderer.rs lines
417-426). -/
structure ImageCreateInfo where
  image_type : Nat
  format : Nat
  extent : Extent3D
  mip_levels : Nat
  array_layers : Nat
  samples : Nat
  tiling : Nat
  usage : Nat
  sharing_mode : Nat
deriving DecidableEq, Repr

/-- The device responses `create_depth_image` consumes: the memory
requirements the device reports for the freshly created image
(`get_image_memory_requirements`), the physical-device memory properties,
and whether `bind_image_memory` succeeds.  The other fallible calls
(`create_image`, `allocate_memory`) panic on device error in the source and
are modelled as succeeding. -/
structure DepthImageDeviceEnv where
  depth_image_memory_req : MemoryRequirements
  device_memory_properties : PhysicalDeviceMemoryProperties
  bind_result_ok : Bool
deriving DecidableEq, Repr

/-- What a successful `create_depth_image` run produced: the creation
parameters of the image, the size it allocated, the memory type it chose
and the offset it bound at. -/
structure DepthImageResources where
  depth_image_create_info : ImageCreateInfo
  allocation_size : Nat
  memory_type_index : Nat
  bind_offset : Nat
deriving DecidableEq, Repr

/-- renderer.rs lines 410-448 (`create_depth_image`): build the image
create info (2D, D16_UNORM, single mip/layer/sample, optimal tiling,
depth-stencil-attachment usage, exclusive sharing), query the image's
memory requirement, pick a device-local memory type via
`find_memorytype_index` (the `expect` on failure is a panic, modelled
`none`), allocate exactly the required size, and bind at offset 0 (the
`expect` on bind failure likewise panics, modelled `none`, so no image
handle is returned unless binding succeeded). -/
def create_depth_image (env : DepthImageDeviceEnv)
    (surface_resolution : Extent2D) : Option DepthImageResources :=
  let depth_image_create_info : ImageCreateInfo :=
    { image_type := IMAGE_TYPE_2D,
      format := FORMAT_D16_UNORM,
      extent := { width := surface_resolution.width,
                  height := surface_resolution.height,
                  depth := 1 },
      mip_levels := 1,
      array_layers := 1,
      samples := SAMPLE_COUNT_1,
      tiling := IMAGE_TILING_OPTIMAL,
      usage := IMAGE_USAGE_DEPTH_STENCIL_ATTACHMENT,
      sharing_mode := SHARING_MODE_EXCLUSIVE }
  match find_memorytype_index env.depth_image_memory_req
      env.device_memory_properties MEMORY_PROPERTY_DEVICE_LOCAL with
  | none => none
  | some depth_image_memory_index =>
    if env.bind_result_ok then
      some { depth_image_create_info := depth_image_create_info,
             allocation_size := env.depth_image_memory_req.size,
             memory_type_index := depth_image_memory_index,
             bind_offset := 0 }
    else none

end TempuraRenderer

section ListHelpers

/-- Running `find?` over `enumFrom n` finds the pair at offset `k` iff that pair
satisfies the predicate and no earlier offset does. -/
theorem enumFrom_find?_eq_some {α : Type} (p : Nat × α → Bool) :
    ∀ (l : List α) (n i : Nat) (x : α),
      (List.enumFrom n l).find? p = some (i, x) ↔
        ∃ k, i = n + k ∧ l[k]? = some x ∧ p (i, x) = true ∧
          ∀ j y, j < k → l[j]? = some y → p (n + j, y) = false
  | [], n, i, x => by simp [List.enumFrom]
  | a :: l, n, i, x => by
    rw [List.enumFrom_cons]
    by_cases h : p (n, a)
    · rw [List.find?_cons_of_pos _ h]
      constructor
      · intro heq
        have h1 : n = i ∧ a = x := by simpa using heq
        refine ⟨0, by omega, ?_, ?_, ?_⟩
        · simp [h1.2]
        · rw [← h1.1, ← h1.2]; exact h
        · intro j y hj; omega
      · rintro ⟨k, hk, hget, hp, hmin⟩
        match k with
        | 0 =>
          simp only [List.getElem?_cons_zero, Option.some.injEq] at hget
          subst hget
          simp [hk]
        | k + 1 =>
          have := hmin 0 a (by omega) (by simp)
          exact absurd h (by simpa using this)
    · rw [List.find?_cons_of_neg _ h]
      rw [enumFrom_find?_eq_some p l (n + 1) i x]
      constructor
      · rintro ⟨k, hk, hget, hp, hmin⟩
        refine ⟨k + 1, by omega, by simpa using hget, hp, ?_⟩
        intro j y hj hget'
        match j with
        | 0 =>
          simp only [List.getElem?_cons_zero, Option.some.injEq] at hget'
          subst hget'
          simpa using h
        | j + 1 =>
          have := hmin j y (by omega) (by simpa using hget')
          simpa [Nat.add_assoc, Nat.add_comm 1 j] using this
      · rintro ⟨k, hk, hget, hp, hmin⟩
        match k with
        | 0 =>
          simp only [List.getElem?_cons_zero, Option.some.injEq] at hget
          subst hget
          exact absurd (show p (n, a) = true by rw [hk] at hp; simpa using hp)
            (by simp [h])
        | k + 1 =>
          refine ⟨k, by omega, by simpa using hget, hp, ?_⟩
          intro j y hj hget'
          have := hmin (j + 1) y (by omega) (by simpa using hget')
          simpa [Nat.add_assoc, Nat.add_comm 1 j] using this

/-- Running `find?` over `enumFrom n` fails iff no offset satisfies the predicate. -/
theorem enumFrom_find?_eq_none {α : Type} (p : Nat × α → Bool) :
    ∀ (l : List α) (n : Nat),
      (List.enumFrom n l).find? p = none ↔
        ∀ j y, l[j]? = some y → p (n + j, y) = false
  | [], n => by simp [List.enumFrom]
  | a :: l, n => by
    rw [List.enumFrom_cons, List.find?_cons]
    by_cases h : p (n, a)
    · simp only [h]
      constructor
      · intro heq; cases heq
      · intro hall
        have := hall 0 a (by simp)
        exact absurd h (by simpa using this)
    · simp only [Bool.not_eq_true] at h
      rw [h]
      rw [enumFrom_find?_eq_none p l (n + 1)]
      constructor
      · intro hall j y hget
        match j with
        | 0 =>
          simp only [List.getElem?_cons_zero, Option.some.injEq] at hget
          subst hget; simpa using h
        | j + 1 =>
          have := hall j y (by simpa using hget)
          simpa [Nat.add_assoc, Nat.add_comm 1 j] using this
      · intro hall j y hget
        have := hall (j + 1) y (by simpa using hget)
        simpa [Nat.add_assoc, Nat.add_comm 1 j] using this

/-- The `enum` specialisation of `enumFrom_find?_eq_some`. -/
theorem enum_find?_eq_some {α : Type} (p : Nat × α → Bool) (l : List α)
    (i : Nat) (x : α) :
    l.enum.find? p = some (i, x) ↔
      l[i]? = some x ∧ p (i, x) = true ∧
        ∀ j y, j < i → l[j]? = some y → p (j, y) = false := by
  rw [show l.enum = List.enumFrom 0 l from rfl,
    enumFrom_find?_eq_some p l 0 i x]
  constructor
  · rintro ⟨k, hk, hget, hp, hmin⟩
    have hk0 : k = i := by omega
    subst hk0
    exact ⟨hget, hp, fun j y hj hg => by simpa using hmin j y hj hg⟩
  · rintro ⟨hget, hp, hmin⟩
    exact ⟨i, by omega, hget, hp, fun j y hj hg => by simpa using hmin j y hj hg⟩

/-- The `enum` specialisation of `enumFrom_find?_eq_none`. -/
theorem enum_find?_eq_none {α : Type} (p : Nat × α → Bool) (l : List α) :
    l.enum.find? p = none ↔ ∀ j y, l[j]? = some y → p (j, y) = false := by
  rw [show l.enum = List.enumFrom 0 l from rfl, enumFrom_find?_eq_none p l 0]
  constructor
  · intro hall j y hg; simpa using hall j y hg
  · intro hall j y hg; simpa using hall j y hg

/-- Rewriting `findSome?` with an `if`-guarded body is `find?` followed by `map`. -/
theorem findSome?_if {α β : Type} (q : α → Bool) (g : α → β) :
    ∀ l : List α,
      (l.findSome? fun x => if q x then some (g x) else none) =
        (l.find? q).map g
  | [] => rfl
  | a :: l => by
    rw [List.findSome?_cons, List.find?_cons]
    by_cases h : q a
    · simp [h]
    · simp [h, findSome?_if q g l]

/-- Lemma: `findSome?` succeeds with `b` iff some position maps to `some b` and all
earlier positions map to `none`. -/
theorem findSome?_eq_some_iff_first {α β : Type} (f : α → Option β) :
    ∀ (l : List α) (b : β),
      l.findSome? f = some b ↔
        ∃ (k : Nat) (a : α), l[k]? = some a ∧ f a = some b ∧
          ∀ (j : Nat) (c : α), j < k → l[j]? = some c → f c = none
  | [], b => by simp
  | a :: l, b => by
    rw [List.findSome?_cons]
    cases hfa : f a with
    | some b' =>
      constructor
      · intro heq
        refine ⟨0, a, by simp, ?_, ?_⟩
        · rw [hfa]; exact heq
        · intro j c hj; omega
      · rintro ⟨k, a', hget, hfa', hmin⟩
        match k with
        | 0 =>
          simp only [List.getElem?_cons_zero, Option.some.injEq] at hget
          subst hget
          rw [hfa] at hfa'
          exact hfa'
        | k + 1 =>
          have := hmin 0 a (by omega) (by simp)
          rw [this] at hfa
          cases hfa
    | none =>
      rw [findSome?_eq_some_iff_first f l b]
      constructor
      · rintro ⟨k, a', hget, hfa', hmin⟩
        refine ⟨k + 1, a', by simpa using hget, hfa', ?_⟩
        intro j c hj hget'
        match j with
        | 0 =>
          simp only [List.getElem?_cons_zero, Option.some.injEq] at hget'
          subst hget'
          exact hfa
        | j + 1 =>
          exact hmin j c (by omega) (by simpa using hget')
      · rintro ⟨k, a', hget, hfa', hmin⟩
        match k with
        | 0 =>
          simp only [List.getElem?_cons_zero, Option.some.injEq] at hget
          subst hget
          rw [hfa] at hfa'
          cases hfa'
        | k + 1 =>
          refine ⟨k, a', by simpa using hget, hfa', ?_⟩
          intro j c hj hget'
          exact hmin (j + 1) c (by omega) (by simpa using hget')

end ListHelpers

namespace TempuraRenderer

/-- C4: `find_memorytype_index` scans the available memory types (the first
`memory_type_count` entries) in index order and returns the first index `i`
whose bit is set in the requirement bitmask and whose property flags are a
superset of the required flags; it returns `none` exactly when no available
index satisfies both conditions. -/
theorem find_memorytype_index_first_match (memory_req : MemoryRequirements)
    (memory_prop : PhysicalDeviceMemoryProperties) (flags : Nat) :
    (∀ i, find_memorytype_index memory_req memory_prop flags = some i ↔
      ∃ t,
        (memory_prop.memory_types.take memory_prop.memory_type_count)[i]? =
            some t ∧
        memory_type_suitable memory_req flags i t = true ∧
        ∀ j u, j < i →
          (memory_prop.memory_types.take memory_prop.memory_type_count)[j]? =
              some u →
          memory_type_suitable memory_req flags j u = false) ∧
    (find_memorytype_index memory_req memory_prop flags = none ↔
      ∀ j u,
        (memory_prop.memory_types.take memory_prop.memory_type_count)[j]? =
            some u →
        memory_type_suitable memory_req flags j u = false) := by
  constructor
  · intro i
    unfold find_memorytype_index
    constructor
    · intro h
      rw [Option.map_eq_some'] at h
      obtain ⟨⟨i', t⟩, hfind, hfst⟩ := h
      simp only at hfst
      subst hfst
      rw [enum_find?_eq_some] at hfind
      exact ⟨t, hfind.1, hfind.2.1, fun j u hj hg => hfind.2.2 j u hj hg⟩
    · rintro ⟨t, hget, hp, hmin⟩
      have hfind :
          ((memory_prop.memory_types.take memory_prop.memory_type_count).enum.find?
            fun it => memory_type_suitable memory_req flags it.1 it.2) =
            some (i, t) := by
        rw [enum_find?_eq_some]
        exact ⟨hget, hp, hmin⟩
      rw [hfind]
      rfl
  · unfold find_memorytype_index
    rw [Option.map_eq_none']
    exact enum_find?_eq_none _ _

/-- The inner per-device search is a `find?` over the enumerated families
followed by pairing with the handle. -/
theorem device_search_eq (pdevice : PhysicalDeviceInfo) :
    (pdevice.queue_families.enum.findSome? fun it =>
        if supports_graphic_and_surface it.2 then some (pdevice.handle, it.1)
        else none) =
      ((pdevice.queue_families.enum.find? fun it =>
          supports_graphic_and_surface it.2).map
        fun it => (pdevice.handle, it.1)) :=
  findSome?_if _ _ _

/-- The inner per-device search yields `(h, i)` iff the handle matches and
family `i` is the first suitable family of the device. -/
theorem device_search_some (pdevice : PhysicalDeviceInfo) (h i : Nat) :
    (pdevice.queue_families.enum.findSome? fun it =>
        if supports_graphic_and_surface it.2 then some (pdevice.handle, it.1)
        else none) = some (h, i) ↔
      pdevice.handle = h ∧
      ∃ fam, pdevice.queue_families[i]? = some fam ∧
        supports_graphic_and_surface fam = true ∧
        ∀ (j : Nat) (fam' : QueueFamilyInfo), j < i →
          pdevice.queue_families[j]? = some fam' →
          supports_graphic_and_surface fam' = false := by
  rw [device_search_eq, Option.map_eq_some']
  constructor
  · rintro ⟨⟨i', fam⟩, hfind, heq⟩
    have heq2 : pdevice.handle = h ∧ i' = i := by simpa using heq
    obtain ⟨hh, hi⟩ := heq2
    subst hi
    rw [enum_find?_eq_some] at hfind
    exact ⟨hh, fam, hfind.1, hfind.2.1,
      fun j fam' hj hg => hfind.2.2 j fam' hj hg⟩
  · rintro ⟨hh, fam, hget, hsup, hmin⟩
    refine ⟨(i, fam), ?_, by simp [hh]⟩
    rw [enum_find?_eq_some]
    exact ⟨hget, hsup, hmin⟩

/-- The inner per-device search fails iff the device has no suitable
family. -/
theorem device_search_none (pdevice : PhysicalDeviceInfo) :
    (pdevice.queue_families.enum.findSome? fun it =>
        if supports_graphic_and_surface it.2 then some (pdevice.handle, it.1)
        else none) = none ↔
      ∀ (j : Nat) (fam : QueueFamilyInfo),
        pdevice.queue_families[j]? = some fam →
        supports_graphic_and_surface fam = false := by
  rw [device_search_eq, Option.map_eq_none']
  exact enum_find?_eq_none _ _

/-- C2: `get_physical_device` returns the first (device, family) pair — in
device enumeration order, families in index order — whose family supports
graphics and present; it fails (`none`, a panic in the source) exactly when
no pair qualifies.  Determinism is immediate: the result is a function of
the enumeration. -/
theorem get_physical_device_first_match (pdevices : List PhysicalDeviceInfo) :
    (∀ h i, get_physical_device pdevices = some (h, i) ↔
      ∃ (d : Nat) (pd : PhysicalDeviceInfo) (fam : QueueFamilyInfo),
        pdevices[d]? = some pd ∧ pd.handle = h ∧
        pd.queue_families[i]? = some fam ∧
        supports_graphic_and_surface fam = true ∧
        (∀ (d' : Nat) (pd' : PhysicalDeviceInfo), d' < d →
          pdevices[d']? = some pd' →
          ∀ (j : Nat) (fam' : QueueFamilyInfo),
            pd'.queue_families[j]? = some fam' →
            supports_graphic_and_surface fam' = false) ∧
        (∀ (j : Nat) (fam' : QueueFamilyInfo), j < i →
          pd.queue_families[j]? = some fam' →
          supports_graphic_and_surface fam' = false)) ∧
    (get_physical_device pdevices = none ↔
      ∀ (d : Nat) (pd : PhysicalDeviceInfo), pdevices[d]? = some pd →
        ∀ (j : Nat) (fam : QueueFamilyInfo),
          pd.queue_families[j]? = some fam →
          supports_graphic_and_surface fam = false) := by
  constructor
  · intro h i
    unfold get_physical_device
    rw [findSome?_eq_some_iff_first]
    constructor
    · rintro ⟨d, pd, hget, hinner, hmin⟩
      rw [device_search_some] at hinner
      obtain ⟨hh, fam, hfget, hsup, hfmin⟩ := hinner
      refine ⟨d, pd, fam, hget, hh, hfget, hsup, ?_, hfmin⟩
      intro d' pd' hd' hget' j fam' hfam'
      have hnone := hmin d' pd' hd' hget'
      rw [device_search_none] at hnone
      exact hnone j fam' hfam'
    · rintro ⟨d, pd, fam, hget, hh, hfget, hsup, hdmin, hfmin⟩
      refine ⟨d, pd, hget, ?_, ?_⟩
      · rw [device_search_some]
        exact ⟨hh, fam, hfget, hsup, hfmin⟩
      · intro j c hj hget'
        rw [device_search_none]
        exact fun k fam' hk => hdmin j c hj hget' k fam' hk
  · unfold get_physical_device
    rw [List.findSome?_eq_none_iff]
    constructor
    · intro hall d pd hget j fam hfam
      have hnone := hall pd (List.getElem?_mem hget)
      rw [device_search_none] at hnone
      exact hnone j fam hfam
    · intro hall pd hmem
      rw [device_search_none]
      intro j fam hfam
      obtain ⟨d, hd⟩ := List.mem_iff_getElem?.mp hmem
      exact hall d pd hd j fam hfam

/-- C3: the negotiated swapchain image count is `min_image_count + 1`,
clamped down to `max_image_count` when that is nonzero and exceeded; and for
a capability pair as a surface may report it (Vulkan guarantees
`maxImageCount` is zero or at least `minImageCount`), a nonzero
`max_image_count` bounds the result within `[min_image_count,
max_image_count]`. -/
theorem desired_image_count_spec (min_image_count max_image_count : Nat) :
    (max_image_count > 0 ∧ min_image_count + 1 > max_image_count →
      desired_image_count min_image_count max_image_count =
        max_image_count) ∧
    (¬(max_image_count > 0 ∧ min_image_count + 1 > max_image_count) →
      desired_image_count min_image_count max_image_count =
        min_image_count + 1) ∧
    (max_image_count > 0 → min_image_count ≤ max_image_count →
      min_image_count ≤
          desired_image_count min_image_count max_image_count ∧
        desired_image_count min_image_count max_image_count ≤
          max_image_count) := by
  unfold desired_image_count
  dsimp only
  refine ⟨?_, ?_, ?_⟩
  · intro h
    split
    · rfl
    · rename_i hc
      simp only [Bool.and_eq_true, decide_eq_true_eq, gt_iff_lt] at hc
      simp only [gt_iff_lt] at h
      omega
  · intro h
    split
    · rename_i hc
      simp only [Bool.and_eq_true, decide_eq_true_eq, gt_iff_lt] at hc
      simp only [gt_iff_lt] at h
      omega
    · rfl
  · intro hpos hle
    split
    · omega
    · rename_i hc
      simp only [Bool.and_eq_true, decide_eq_true_eq, gt_iff_lt] at hc
      omega

/-- Witness for `desired_image_count_spec`: both branches and the interval
bound at concrete capability pairs. -/
theorem desired_image_count_spec_witness :
    desired_image_count 3 3 = 3 ∧ desired_image_count 2 0 = 3 ∧
      (3 ≤ desired_image_count 3 3 ∧ desired_image_count 3 3 ≤ 3) :=
  ⟨(desired_image_count_spec 3 3).1 (by decide),
   (desired_image_count_spec 2 0).2.1 (by decide),
   (desired_image_count_spec 3 3).2.2 (by decide) (by decide)⟩

/-- C5 counterexample: the source tests only the width of the reported
extent against `std::u32::MAX`, so the extent (u32::MAX, 500) — which is not
the Vulkan "undefined" sentinel (u32::MAX, u32::MAX) — is replaced by the
1920x1080 fallback instead of passing through, refuting the claim that
every non-sentinel extent passes through exactly. -/
theorem surface_resolution_claim_counterexample :
    surface_resolution_of { width := U32_MAX, height := 500 } =
        { width := 1920, height := 1080 } ∧
      ({ width := U32_MAX, height := 500 } : Extent2D) ≠ undefined_extent ∧
      surface_resolution_of { width := U32_MAX, height := 500 } ≠
        { width := U32_MAX, height := 500 } := by
  refine ⟨rfl, ?_, ?_⟩ <;> decide

/-- C5 (amended): the fallback is keyed on the width component alone: a
reported width of `u32::MAX` (in particular the full undefined sentinel)
yields the fixed 1920x1080 fallback, and any extent whose width differs
from `u32::MAX` passes through exactly. -/
theorem surface_resolution_of_width_sentinel (current_extent : Extent2D) :
    (current_extent.width = U32_MAX →
      surface_resolution_of current_extent =
        { width := 1920, height := 1080 }) ∧
    (current_extent.width ≠ U32_MAX →
      surface_resolution_of current_extent = current_extent) := by
  constructor
  · intro h
    simp [surface_resolution_of, h]
  · intro h
    simp [surface_resolution_of, h]

/-- Witness for `surface_resolution_of_width_sentinel`: the sentinel width
falls back, an ordinary extent passes through. -/
theorem surface_resolution_of_width_sentinel_witness :
    surface_resolution_of { width := U32_MAX, height := 600 } =
        { width := 1920, height := 1080 } ∧
      surface_resolution_of { width := 800, height := 600 } =
        { width := 800, height := 600 } :=
  ⟨(surface_resolution_of_width_sentinel _).1 rfl,
   (surface_resolution_of_width_sentinel _).2 (by decide)⟩

/-- C6: present-mode selection returns `MAILBOX` whenever the supported
list contains it, and `FIFO` otherwise — in particular for the empty list
and for lists not containing `FIFO` itself. -/
theorem choose_present_mode_spec (present_modes : List PresentModeKHR) :
    (PresentModeKHR.mailbox ∈ present_modes →
      choose_present_mode present_modes = PresentModeKHR.mailbox) ∧
    (PresentModeKHR.mailbox ∉ present_modes →
      choose_present_mode present_modes = PresentModeKHR.fifo) := by
  constructor
  · intro hmem
    unfold choose_present_mode
    cases hfind :
        present_modes.find? fun mode => mode == PresentModeKHR.mailbox with
    | none =>
      rw [List.find?_eq_none] at hfind
      exact absurd (beq_self_eq_true PresentModeKHR.mailbox) (hfind _ hmem)
    | some m =>
      have hm := List.find?_some hfind
      simp only [beq_iff_eq] at hm
      simp [hm]
  · intro hmem
    unfold choose_present_mode
    have hfind :
        (present_modes.find? fun mode => mode == PresentModeKHR.mailbox) =
          none := by
      rw [List.find?_eq_none]
      intro x hx hxm
      rw [beq_iff_eq] at hxm
      exact hmem (hxm ▸ hx)
    simp [hfind]

/-- Witness for `choose_present_mode_spec`: a set containing mailbox picks
mailbox, the empty set falls back to FIFO. -/
theorem choose_present_mode_spec_witness :
    choose_present_mode [PresentModeKHR.fifo, PresentModeKHR.mailbox] =
        PresentModeKHR.mailbox ∧
      choose_present_mode [] = PresentModeKHR.fifo :=
  ⟨(choose_present_mode_spec _).1 (by decide),
   (choose_present_mode_spec _).2 (by decide)⟩

/-- C10: `Renderer::new` selects the head of the surface-format list
whatever the remaining entries are (no ranking), and on an empty list the
index `[0]` panics (`none`) instead of producing a typed error — the
surrounding `Renderer::new` has no error return type at all. -/
theorem select_surface_format_first (fmt : SurfaceFormatKHR)
    (rest : List SurfaceFormatKHR) :
    select_surface_format (fmt :: rest) = some fmt ∧
      select_surface_format [] = none := by
  refine ⟨?_, ?_⟩ <;> simp [select_surface_format]

/-- Running one protocol cycle from a state whose fence is signaled or has
a pending submission succeeds, appends exactly the cycle's operations to
the log, and leaves the fence unsignaled with the cycle's own submission
pending. -/
theorem record_submit_commandbuffer_run
    (command_buffer fence queue : Nat)
    (wait_mask wait_semaphores signal_semaphores : List Nat) (f : List Cmd)
    (s : DeviceState)
    (h : s.fence.signaled = true ∨ s.fence.pending = true) :
    record_submit_commandbuffer command_buffer fence queue wait_mask
        wait_semaphores signal_semaphores f s =
      some { fence := { signaled := false, pending := true },
             log := s.log ++
               ([DeviceOp.wait_for_fences [fence] true U64_MAX,
                 DeviceOp.reset_fences [fence],
                 DeviceOp.reset_command_buffer command_buffer
                   COMMAND_BUFFER_RESET_RELEASE_RESOURCES,
                 DeviceOp.begin_command_buffer command_buffer
                   COMMAND_BUFFER_USAGE_ONE_TIME_SUBMIT] ++
                f.map (DeviceOp.cmd command_buffer) ++
                [DeviceOp.end_command_buffer command_buffer,
                 DeviceOp.queue_submit queue wait_semaphores wait_mask
                   [command_buffer] signal_semaphores fence]) } := by
  unfold record_submit_commandbuffer wait_for_fences
  by_cases hs : s.fence.signaled = true
  · rw [if_pos hs]
    simp [queue_submit, end_command_buffer, record_cmds,
      begin_command_buffer, reset_command_buffer, reset_fences,
      List.append_assoc]
  · have hp : s.fence.pending = true := by
      rcases h with h | h
      · exact absurd h hs
      · exact h
    rw [if_neg hs, if_pos hp]
    simp [queue_submit, end_command_buffer, record_cmds,
      begin_command_buffer, reset_command_buffer, reset_fences,
      List.append_assoc]

/-- From a state whose fence is unsignaled with nothing pending, the
protocol's unbounded wait never returns: the cycle blocks before any
fence reset, buffer reset or recording happens. -/
theorem record_submit_commandbuffer_blocked
    (command_buffer fence queue : Nat)
    (wait_mask wait_semaphores signal_semaphores : List Nat) (f : List Cmd)
    (s : DeviceState)
    (h1 : s.fence.signaled = false) (h2 : s.fence.pending = false) :
    record_submit_commandbuffer command_buffer fence queue wait_mask
        wait_semaphores signal_semaphores f s = none := by
  unfold record_submit_commandbuffer wait_for_fences
  rw [if_neg (by simp [h1]), if_neg (by simp [h2])]
  rfl

/-- C1: each cycle of the submission protocol performs its device calls in
exactly the order wait-on-fence, reset-fence, reset-buffer,
begin (one-time submit), the caller's recorded commands, end, submit with
the same fence as completion signal; two cycles in sequence from a
signaled fence both complete (no deadlock), with the second cycle's
operations — its recording included — appended strictly after the first
cycle's submission; and from a fence that is neither signaled nor pending
the protocol blocks at the wait, so a cycle's recording cannot begin before
the previous cycle's fence has been observed signaled. -/
theorem record_submit_commandbuffer_protocol
    (command_buffer fence queue : Nat)
    (wait_mask wait_semaphores signal_semaphores : List Nat)
    (f1 f2 : List Cmd) (s : DeviceState)
    (h : s.fence.signaled = true) :
    ∃ s1 s2,
      record_submit_commandbuffer command_buffer fence queue wait_mask
          wait_semaphores signal_semaphores f1 s = some s1 ∧
      record_submit_commandbuffer command_buffer fence queue wait_mask
          wait_semaphores signal_semaphores f2 s1 = some s2 ∧
      s1.log = s.log ++
        ([DeviceOp.wait_for_fences [fence] true U64_MAX,
          DeviceOp.reset_fences [fence],
          DeviceOp.reset_command_buffer command_buffer
            COMMAND_BUFFER_RESET_RELEASE_RESOURCES,
          DeviceOp.begin_command_buffer command_buffer
            COMMAND_BUFFER_USAGE_ONE_TIME_SUBMIT] ++
         f1.map (DeviceOp.cmd command_buffer) ++
         [DeviceOp.end_command_buffer command_buffer,
          DeviceOp.queue_submit queue wait_semaphores wait_mask
            [command_buffer] signal_semaphores fence]) ∧
      s2.log = s1.log ++
        ([DeviceOp.wait_for_fences [fence] true U64_MAX,
          DeviceOp.reset_fences [fence],
          DeviceOp.reset_command_buffer command_buffer
            COMMAND_BUFFER_RESET_RELEASE_RESOURCES,
          DeviceOp.begin_command_buffer command_buffer
            COMMAND_BUFFER_USAGE_ONE_TIME_SUBMIT] ++
         f2.map (DeviceOp.cmd command_buffer) ++
         [DeviceOp.end_command_buffer command_buffer,
          DeviceOp.queue_submit queue wait_semaphores wait_mask
            [command_buffer] signal_semaphores fence]) ∧
      (∀ t : DeviceState, t.fence.signaled = false →
        t.fence.pending = false →
        record_submit_commandbuffer command_buffer fence queue wait_mask
          wait_semaphores signal_semaphores f2 t = none) := by
  have h1 := record_submit_commandbuffer_run command_buffer fence queue
    wait_mask wait_semaphores signal_semaphores f1 s (Or.inl h)
  have h2 := record_submit_commandbuffer_run command_buffer fence queue
    wait_mask wait_semaphores signal_semaphores f2
    { fence := { signaled := false, pending := true },
      log := s.log ++
        ([DeviceOp.wait_for_fences [fence] true U64_MAX,
          DeviceOp.reset_fences [fence],
          DeviceOp.reset_command_buffer command_buffer
            COMMAND_BUFFER_RESET_RELEASE_RESOURCES,
          DeviceOp.begin_command_buffer command_buffer
            COMMAND_BUFFER_USAGE_ONE_TIME_SUBMIT] ++
         f1.map (DeviceOp.cmd command_buffer) ++
         [DeviceOp.end_command_buffer command_buffer,
          DeviceOp.queue_submit queue wait_semaphores wait_mask
            [command_buffer] signal_semaphores fence]) }
    (Or.inr rfl)
  exact ⟨_, _, h1, h2, rfl, rfl, fun t ht1 ht2 =>
    record_submit_commandbuffer_blocked command_buffer fence queue wait_mask
      wait_semaphores signal_semaphores f2 t ht1 ht2⟩

/-- Witness for `record_submit_commandbuffer_protocol`: two concrete
back-to-back submissions on buffer 0 with fence 1 on queue 2, starting from
a signaled fence, both complete. -/
theorem record_submit_commandbuffer_protocol_witness :
    ∃ s1 s2,
      record_submit_commandbuffer 0 1 2 [] [] [] []
          { fence := { signaled := true, pending := false }, log := [] } =
        some s1 ∧
      record_submit_commandbuffer 0 1 2 [] [] [] [] s1 = some s2 := by
  obtain ⟨s1, s2, h1, h2, -, -, -⟩ :=
    record_submit_commandbuffer_protocol 0 1 2 [] [] [] [] []
      { fence := { signaled := true, pending := false }, log := [] } rfl
  exact ⟨s1, s2, h1, h2⟩

/-- C8: `optimize_depth_image_layout` runs the submission protocol with
empty wait-semaphore, wait-stage-mask and signal-semaphore lists, and its
callback records exactly one pipeline barrier on the depth image from the
undefined layout to depth-stencil-attachment-optimal, destination access
mask depth-stencil-attachment read|write, scoped from bottom-of-pipe to
late-fragment-tests. -/
theorem optimize_depth_image_layout_spec
    (setup_command_buffer setup_fence present_queue depth_image : Nat)
    (s : DeviceState)
    (h : s.fence.signaled = true ∨ s.fence.pending = true) :
    optimize_depth_image_layout setup_command_buffer setup_fence
        present_queue depth_image s =
      some { fence := { signaled := false, pending := true },
             log := s.log ++
               [DeviceOp.wait_for_fences [setup_fence] true U64_MAX,
                DeviceOp.reset_fences [setup_fence],
                DeviceOp.reset_command_buffer setup_command_buffer
                  COMMAND_BUFFER_RESET_RELEASE_RESOURCES,
                DeviceOp.begin_command_buffer setup_command_buffer
                  COMMAND_BUFFER_USAGE_ONE_TIME_SUBMIT,
                DeviceOp.cmd setup_command_buffer
                  (Cmd.pipeline_barrier PIPELINE_STAGE_BOTTOM_OF_PIPE
                    PIPELINE_STAGE_LATE_FRAGMENT_TESTS 0 [] []
                    [{ src_access_mask := 0,
                       dst_access_mask :=
                         ACCESS_DEPTH_STENCIL_ATTACHMENT_READ |||
                           ACCESS_DEPTH_STENCIL_ATTACHMENT_WRITE,
                       old_layout := IMAGE_LAYOUT_UNDEFINED,
                       new_layout :=
                         IMAGE_LAYOUT_DEPTH_STENCIL_ATTACHMENT_OPTIMAL,
                       image := depth_image,
                       aspect_mask := IMAGE_ASPECT_DEPTH,
                       base_mip_level := 0,
                       level_count := 1,
                       base_array_layer := 0,
                       layer_count := 1 }]),
                DeviceOp.end_command_buffer setup_command_buffer,
                DeviceOp.queue_submit present_queue [] []
                  [setup_command_buffer] [] setup_fence] } := by
  unfold optimize_depth_image_layout
  rw [record_submit_commandbuffer_run _ _ _ _ _ _ _ _ h]
  simp [layout_transition_barriers]

/-- Witness for `optimize_depth_image_layout_spec`: a concrete run from a
signaled fence. -/
theorem optimize_depth_image_layout_spec_witness :
    optimize_depth_image_layout 0 1 2 3
        { fence := { signaled := true, pending := false }, log := [] } =
      some { fence := { signaled := false, pending := true },
             log :=
               [DeviceOp.wait_for_fences [1] true U64_MAX,
                DeviceOp.reset_fences [1],
                DeviceOp.reset_command_buffer 0
                  COMMAND_BUFFER_RESET_RELEASE_RESOURCES,
                DeviceOp.begin_command_buffer 0
                  COMMAND_BUFFER_USAGE_ONE_TIME_SUBMIT,
                DeviceOp.cmd 0
                  (Cmd.pipeline_barrier PIPELINE_STAGE_BOTTOM_OF_PIPE
                    PIPELINE_STAGE_LATE_FRAGMENT_TESTS 0 [] []
                    [{ src_access_mask := 0,
                       dst_access_mask :=
                         ACCESS_DEPTH_STENCIL_ATTACHMENT_READ |||
                           ACCESS_DEPTH_STENCIL_ATTACHMENT_WRITE,
                       old_layout := IMAGE_LAYOUT_UNDEFINED,
                       new_layout :=
                         IMAGE_LAYOUT_DEPTH_STENCIL_ATTACHMENT_OPTIMAL,
                       image := 3,
                       aspect_mask := IMAGE_ASPECT_DEPTH,
                       base_mip_level := 0,
                       level_count := 1,
                       base_array_layer := 0,
                       layer_count := 1 }]),
                DeviceOp.end_command_buffer 0,
                DeviceOp.queue_submit 2 [] [] [0] [] 1] } := by
  have := optimize_depth_image_layout_spec 0 1 2 3
    { fence := { signaled := true, pending := false }, log := [] }
    (Or.inl rfl)
  simpa using this

/-- Any initial state whose fence is signaled or pending supports `n + 1`
protocol cycles and ends unsignaled with the last submission pending. -/
theorem run_cycles_fence_state
    (command_buffer fence queue : Nat)
    (wait_mask wait_semaphores signal_semaphores : List Nat) (f : List Cmd) :
    ∀ (n : Nat) (s : DeviceState),
      s.fence.signaled = true ∨ s.fence.pending = true →
      ∃ s',
        run_cycles command_buffer fence queue wait_mask wait_semaphores
            signal_semaphores f (n + 1) s = some s' ∧
        s'.fence = { signaled := false, pending := true }
  | 0, s, h => by
    rw [run_cycles,
      record_submit_commandbuffer_run _ _ _ _ _ _ _ _ h]
    exact ⟨_, rfl, rfl⟩
  | n + 1, s, h => by
    rw [run_cycles,
      record_submit_commandbuffer_run _ _ _ _ _ _ _ _ h]
    rw [Option.some_bind]
    exact run_cycles_fence_state command_buffer fence queue wait_mask
      wait_semaphores signal_semaphores f n _ (Or.inr rfl)

/-- C9: both reuse fences are created with the SIGNALED flag, so the first
protocol invocation on each command buffer observes an already-signaled
fence and proceeds without blocking; and after any number of cycles the
fence is unsignaled with exactly the last cycle's submission pending, so
every later cycle's wait blocks and is satisfied precisely by the previous
submission's completion signal re-arming the same fence. -/
theorem reuse_fences_created_signaled
    (command_buffer fence queue : Nat)
    (wait_mask wait_semaphores signal_semaphores : List Nat) (f : List Cmd)
    (log0 : List DeviceOp) :
    setup_commands_reuse_fence.signaled = true ∧
    draw_commands_reuse_fence.signaled = true ∧
    setup_commands_reuse_fence.pending = false ∧
    draw_commands_reuse_fence.pending = false ∧
    wait_blocks { fence := setup_commands_reuse_fence, log := log0 } =
      false ∧
    ∀ n, ∃ s',
      run_cycles command_buffer fence queue wait_mask wait_semaphores
          signal_semaphores f (n + 1)
          { fence := setup_commands_reuse_fence, log := log0 } = some s' ∧
      s'.fence = { signaled := false, pending := true } ∧
      wait_blocks s' = true := by
  refine ⟨rfl, rfl, rfl, rfl, rfl, ?_⟩
  intro n
  obtain ⟨s', hrun, hfence⟩ := run_cycles_fence_state command_buffer fence
    queue wait_mask wait_semaphores signal_semaphores f n
    { fence := setup_commands_reuse_fence, log := log0 } (Or.inl rfl)
  exact ⟨s', hrun, hfence, by simp [wait_blocks, hfence]⟩

/-- C7: whenever `create_depth_image` returns resources, the image was
created 2D with the 16-bit depth format, one mip level, one array layer,
one sample, optimal tiling, depth-stencil-attachment usage and exclusive
sharing at the given resolution; the allocation is exactly the queried
required size from a memory type selected by `find_memorytype_index` with
the device-local flag; the memory is bound at offset 0; and on a failed
memory-type search or a failed bind nothing is returned — no half-bound
resource escapes. -/
theorem create_depth_image_spec (env : DepthImageDeviceEnv)
    (surface_resolution : Extent2D) :
    (∀ r, create_depth_image env surface_resolution = some r →
      r.depth_image_create_info =
        { image_type := IMAGE_TYPE_2D,
          format := FORMAT_D16_UNORM,
          extent := { width := surface_resolution.width,
                      height := surface_resolution.height,
                      depth := 1 },
          mip_levels := 1,
          array_layers := 1,
          samples := SAMPLE_COUNT_1,
          tiling := IMAGE_TILING_OPTIMAL,
          usage := IMAGE_USAGE_DEPTH_STENCIL_ATTACHMENT,
          sharing_mode := SHARING_MODE_EXCLUSIVE } ∧
      r.allocation_size = env.depth_image_memory_req.size ∧
      find_memorytype_index env.depth_image_memory_req
          env.device_memory_properties MEMORY_PROPERTY_DEVICE_LOCAL =
        some r.memory_type_index ∧
      r.bind_offset = 0) ∧
    (env.bind_result_ok = false →
      create_depth_image env surface_resolution = none) ∧
    (find_memorytype_index env.depth_image_memory_req
        env.device_memory_properties MEMORY_PROPERTY_DEVICE_LOCAL = none →
      create_depth_image env surface_resolution = none) := by
  unfold create_depth_image
  refine ⟨?_, ?_, ?_⟩
  · intro r hr
    cases hfind : find_memorytype_index env.depth_image_memory_req
        env.device_memory_properties MEMORY_PROPERTY_DEVICE_LOCAL with
    | none =>
      rw [hfind] at hr
      dsimp only at hr
      cases hr
    | some idx =>
      rw [hfind] at hr
      dsimp only at hr
      by_cases hbind : env.bind_result_ok
      · rw [if_pos hbind] at hr
        have hr' := Option.some.inj hr
        subst hr'
        exact ⟨rfl, rfl, rfl, rfl⟩
      · rw [if_neg hbind] at hr
        cases hr
  · intro hbind
    cases hfind : find_memorytype_index env.depth_image_memory_req
        env.device_memory_properties MEMORY_PROPERTY_DEVICE_LOCAL with
    | none => rfl
    | some idx =>
      dsimp only
      rw [if_neg (by simp [hbind])]
  · intro hfind
    rw [hfind]

/-- Witness for `create_depth_image_spec`: a concrete device environment
with one device-local memory type at index 1 matching requirement bit 1
selects index 1, and flipping the bind result to failure yields nothing. -/
theorem create_depth_image_spec_witness :
    find_memorytype_index
        ({ size := 1024, alignment := 4, memory_type_bits := 2 })
        ({ memory_type_count := 2,
           memory_types := [{ property_flags := 0, heap_index := 0 },
             { property_flags := 1, heap_index := 0 }] })
        MEMORY_PROPERTY_DEVICE_LOCAL = some 1 ∧
      create_depth_image
        ({ depth_image_memory_req :=
             { size := 1024, alignment := 4, memory_type_bits := 2 },
           device_memory_properties :=
             { memory_type_count := 2,
               memory_types := [{ property_flags := 0, heap_index := 0 },
                 { property_flags := 1, heap_index := 0 }] },
           bind_result_ok := false })
        ({ width := 1920, height := 1080 }) = none := by
  constructor
  · exact ((create_depth_image_spec
      ({ depth_image_memory_req :=
           { size := 1024, alignment := 4, memory_type_bits := 2 },
         device_memory_properties :=
           { memory_type_count := 2,
             memory_types := [{ property_flags := 0, heap_index := 0 },
               { property_flags := 1, heap_index := 0 }] },
         bind_result_ok := true })
      ({ width := 1920, height := 1080 })).1
      ({ depth_image_create_info :=
           { image_type := IMAGE_TYPE_2D, format := FORMAT_D16_UNORM,
             extent := { width := 1920, height := 1080, depth := 1 },
             mip_levels := 1, array_layers := 1, samples := SAMPLE_COUNT_1,
             tiling := IMAGE_TILING_OPTIMAL,
             usage := IMAGE_USAGE_DEPTH_STENCIL_ATTACHMENT,
             sharing_mode := SHARING_MODE_EXCLUSIVE },
         allocation_size := 1024, memory_type_index := 1,
         bind_offset := 0 })
      (by decide)).2.2.1
  · exact (create_depth_image_spec
      ({ depth_image_memory_req :=
           { size := 1024, alignment := 4, memory_type_bits := 2 },
         device_memory_properties :=
           { memory_type_count := 2,
             memory_types := [{ property_flags := 0, heap_index := 0 },
               { property_flags := 1, heap_index := 0 }] },
         bind_result_ok := false })
      ({ width := 1920, height := 1080 })).2.1 rfl

/-- Witness for `get_physical_device_first_match`: a single device with a
non-graphics family at index 0 and a graphics+present family at index 1 is
selected as (handle 7, family 1). -/
theorem get_physical_device_first_match_witness :
    get_physical_device
      [{ handle := 7,
         queue_families := [{ queue_flags := 0, surface_support := true },
           { queue_flags := 1, surface_support := true }] }] = some (7, 1) :=
  ((get_physical_device_first_match
      [{ handle := 7,
         queue_families := [{ queue_flags := 0, surface_support := true },
           { queue_flags := 1, surface_support := true }] }]).1 7 1).mpr
    ⟨0, { handle := 7,
          queue_families := [{ queue_flags := 0, surface_support := true },
            { queue_flags := 1, surface_support := true }] },
      { queue_flags := 1, surface_support := true }, rfl, rfl, by decide,
      by decide,
      fun d' pd' hd' => absurd hd' (Nat.not_lt_zero d'),
      fun j fam' hj hg => by
        have hj0 : j = 0 := by omega
        subst hj0
        simp only [List.getElem?_cons_zero, Option.some.injEq] at hg
        subst hg
        decide⟩

/-- Witness for `find_memorytype_index_first_match`: with requirement
bitmask 4 (bit 2 only) and only index 2 carrying the required flag, the
selected index is 2. -/
theorem find_memorytype_index_first_match_witness :
    find_memorytype_index
      ({ size := 16, alignment := 4, memory_type_bits := 4 })
      ({ memory_type_count := 3,
         memory_types := [{ property_flags := 0, heap_index := 0 },
           { property_flags := 0, heap_index := 0 },
           { property_flags := 1, heap_index := 0 }] }) 1 = some 2 :=
  ((find_memorytype_index_first_match
      ({ size := 16, alignment := 4, memory_type_bits := 4 })
      ({ memory_type_count := 3,
         memory_types := [{ property_flags := 0, heap_index := 0 },
           { property_flags := 0, heap_index := 0 },
           { property_flags := 1, heap_index := 0 }] }) 1).1 2).mpr
    ⟨{ property_flags := 1, heap_index := 0 }, by decide, by decide,
      fun j u hj hg => by
        interval_cases j <;>
          (simp only [List.take, List.getElem?_cons_zero,
            List.getElem?_cons_succ, Option.some.injEq] at hg;
           subst hg;
           decide)⟩

end TempuraRenderer
